import Mathlib

set_option autoImplicit false

/-!
Verification development for the covid-data-public reconciliation pipeline
(`scripts/update_covid_county_data.py` and `scripts/update_forecast_hub.py`).

The pandas DataFrames are embedded as lists of records.  Dates are modelled as
integers counting days since 1970-01-01 (epoch days); in particular
- 2019-12-01 is day 18231,
- 2020-05-14 is day 18396 and 2020-05-20 is day 18402.
A missing (NaN/NaT) cell is `none`.  Series/column operations of the scripts
become list operations on the record fields.
-/

namespace CovidDataPublic

/-- A row of the county/state case-and-hospitalization table, carrying the
canonical (CommonFields) columns that the transformation steps of
`update_covid_county_data.py` read or write.  Every field is optional because
any pandas cell can be NaN. -/
structure CRow where
  fips : Option String
  date : Option Int
  state : Option String
  county : Option String
  country : Option String
  aggregateLevel : Option String
  cases : Option Int
  deaths : Option Int
  icuBeds : Option Int
  hospitalBedsInUseAny : Option Int
  staffedBeds : Option Int
  currentIcuTotal : Option Int
  currentIcu : Option Int
  deriving Repr, DecidableEq

/-- Left-pad a decimal string with zeros up to `width` characters (the
behaviour of a Python `f"{v:0Nd}"` format: pad to a minimum width). -/
def zeroPad (width : Nat) (s : String) : String :=
  String.mk (List.replicate (width - s.length) '0') ++ s

/-- Modelled from the spec: `helpers.fips_from_int` (scripts/helpers.py is not
among the provided sources).  §4.2: "raw location codes arrive as integers
without leading zeros; derivation must zero-pad to the correct fixed width
(2 digits if the unpadded value < 100, else 5 digits) before any join". -/
def fips_from_int (v : Nat) : String :=
  if v < 100 then zeroPad 2 (toString v) else zeroPad 5 (toString v)

/-- `pd.Series.max()` of a column of optional dates: NaN entries are skipped,
and an all-NaN series has no maximum. -/
def seriesMax (dates : List (Option Int)) : Option Int :=
  (dates.filterMap id).max?

/-- `_fail_if_no_recent_dates` of update_covid_county_data.py: raise
`StaleDataError(f"Latest dt is {latest_dt}")` when the newest date in the
series is strictly older than `today - stale_days_allowed`. -/
def fail_if_no_recent_dates (dates : List (Option Int)) (today : Int)
    (stale_days_allowed : Int := 3) : Except String Unit :=
  match seriesMax dates with
  | none => .ok ()
  | some latest =>
    if latest < today - stale_days_allowed then
      .error ("Latest dt is " ++ toString latest)
    else
      .ok ()

/-- First match of a FIPS key in the county reference table
(`fips_population.csv` keyed by FIPS, giving state and county name). -/
def lookupCounty (ref : List (String × String × String)) (f : String) :
    Option (String × String) :=
  (ref.find? fun e => e.1 == f).map (·.2)

/-- First match of a FIPS key in the census state table (`state.txt`). -/
def lookupState (ref : List (String × String)) (f : String) : Option String :=
  (ref.find? fun e => e.1 == f).map (·.2)

/-- `.str.len() == 2` on an optional FIPS value; NaN compares false. -/
def optFipsLen2 (f : Option String) : Bool :=
  match f with
  | some s => s.length == 2
  | none => false

/-- `df[CommonFields.FIPS].str.len() == 2` for one row. -/
def fipsLenIs2 (r : CRow) : Bool :=
  optFipsLen2 r.fips

/-- `df[CommonFields.COUNTRY] = "USA"` on one row. -/
def addCountry (r : CRow) : CRow :=
  { r with country := some "USA" }

/-- The county left-join on FIPS (`counties.merge(fips_data[[STATE, COUNTY]],
left_on=[FIPS], how="left", right_index=True)`) on one row: a match fills
STATE and COUNTY, a miss (including a NaN FIPS) leaves them NaN. -/
def mergeCountyRow (countyRef : List (String × String × String)) (r : CRow) :
    CRow :=
  match r.fips.bind (lookupCounty countyRef) with
  | some sc => { r with state := some sc.1, county := some sc.2 }
  | none => { r with state := none, county := none }

/-- `counties[CommonFields.AGGREGATE_LEVEL] = "county"` on one row. -/
def tagCounty (r : CRow) : CRow :=
  { r with aggregateLevel := some "county" }

/-- The state left-join on FIPS (`states.merge(state_df[[STATE]], ...)`)
followed by `states[AGGREGATE_LEVEL] = "state"`, on one row; an unmatched
state keeps a NaN STATE and is not dropped here. -/
def mergeStateRow (stateRef : List (String × String)) (r : CRow) : CRow :=
  { r with state := r.fips.bind (lookupState stateRef),
           aggregateLevel := some "state" }

/-- `CovidCountyDataTransformer._counties_states_with_geoattributes`:
set COUNTRY to "USA", split by FIPS length (2 = states, everything else =
counties), left-join counties with the county FIPS table and drop (warning)
the rows with no match, tag AGGREGATE_LEVEL, and left-join states with the
census state table.  Returns (counties, states, warnings). -/
def counties_states_with_geoattributes (df : List CRow)
    (countyRef : List (String × String × String))
    (stateRef : List (String × String)) :
    List CRow × List CRow × List String :=
  let df1 := df.map addCountry
  let states := df1.filter fun r => fipsLenIs2 r
  let counties := df1.filter fun r => !(fipsLenIs2 r)
  let countiesMerged := counties.map (mergeCountyRow countyRef)
  let noMatch := countiesMerged.filter fun r => r.state.isNone
  let warnings :=
    if noMatch.isEmpty then ([] : List String)
    else ["Some counties did not match by fips"]
  let countiesOk := (countiesMerged.filter fun r => r.state.isSome).map tagCounty
  let statesMerged := states.map (mergeStateRow stateRef)
  (countiesOk, statesMerged, warnings)

/-- `s.startswith(p)` on strings, computed over the character lists. -/
def strStartsWith (s p : String) : Bool :=
  p.data.isPrefixOf s.data

/-- A row whose FIPS starts with "48" (a Texas county), as in
`counties[CommonFields.FIPS].str.startswith("48")`. -/
def isTxCounty (r : CRow) : Bool :=
  strStartsWith (r.fips.getD "") "48"

/-- The all-`none` row produced at the tail of a `DataFrame.shift(-1)`; only
the DATE (the index, which does not shift) is kept. -/
def emptyRowAt (d : Option Int) : CRow :=
  ⟨none, d, none, none, none, none, none, none, none, none, none, none, none⟩

/-- True when every column except the DATE index is NaN; `dropna(how="all")`
removes exactly these rows. -/
def allFieldsNone (r : CRow) : Bool :=
  r.fips.isNone && r.state.isNone && r.county.isNone && r.country.isNone &&
  r.aggregateLevel.isNone && r.cases.isNone && r.deaths.isNone &&
  r.icuBeds.isNone && r.hospitalBedsInUseAny.isNone && r.staffedBeds.isNone &&
  r.currentIcuTotal.isNone && r.currentIcu.isNone

/-- `DataFrame.shift(-1)` after `set_index(DATE)`: position `i` keeps its own
DATE but receives every non-index column of position `i + 1`; the final
position becomes all-NaN.  The shift is positional over the whole frame. -/
def shiftUpOne : List CRow → List CRow
  | [] => []
  | [r] => [emptyRowAt r.date]
  | r :: r2 :: rest => { r2 with date := r.date } :: shiftUpOne (r2 :: rest)

/-- The TX date-shift block of `CovidCountyDataTransformer.transform`
(lines 143-149): select the rows whose FIPS starts with "48", shift the whole
selection up one position, drop all-NaN rows, and re-append after the
untouched rows. -/
def txDateShift (counties : List CRow) : List CRow :=
  let txCounties := counties.filter isTxCounty
  let shifted := (shiftUpOne txCounties).filter fun r => !(allFieldsNone r)
  (counties.filter fun r => !(isTxCounty r)) ++ shifted

/-- A flagged (county, date-window) entry of the backfill exception list. -/
structure BackfillRule where
  ruleFips : String
  startDate : Int
  endDate : Int
  deriving Repr, DecidableEq

/-- `Series.between(lo, hi)` on an optional date: inclusive at both ends and
false for NaN. -/
def dateInWindow (d : Option Int) (lo hi : Int) : Bool :=
  match d with
  | some x => decide (lo ≤ x) && decide (x ≤ hi)
  | none => false

/-- Modelled from the spec: `update_nytimes_data.remove_county_backfilled_cases`
with the `COUNTY_BACKFILLED_CASES` rule list (scripts/update_nytimes_data.py is
not among the provided sources).  §4.3.5 and §9 describe backfill suppression
as a declarative exception list of flagged regions and date windows whose
revised cumulative case values are removed; the removal leaves the row and its
other fields in place. -/
def backfillRow (rules : List BackfillRule) (r : CRow) : CRow :=
  if rules.any fun b =>
      (r.fips == some b.ruleFips) && dateInWindow r.date b.startDate b.endDate
  then { r with cases := none }
  else r

/-- The rule list applied to every row of the counties partition. -/
def remove_county_backfilled_cases (rules : List BackfillRule)
    (df : List CRow) : List CRow :=
  df.map (backfillRow rules)

/-- The state-level bed columns dropped by `transform` (lines 159-165):
ICU_BEDS, HOSPITAL_BEDS_IN_USE_ANY, STAFFED_BEDS and CURRENT_ICU_TOTAL.  In
the row model, dropping the columns from the state partition makes the fields
NaN once the partition is concatenated with the counties. -/
def dropStateBedColumns (r : CRow) : CRow :=
  { r with icuBeds := none, hospitalBedsInUseAny := none,
           staffedBeds := none, currentIcuTotal := none }

/-- A row with a null FIPS, DATE or STATE (`_drop_bad_rows`, lines 206-210). -/
def isBadRow (r : CRow) : Bool :=
  r.fips.isNone || r.date.isNone || r.state.isNone

/-- 2019-12-01 as epoch days: the boundary of `_drop_bad_rows`' ancient-data
filter (`df[CommonFields.DATE] < "2019-12-01"`). -/
def ancientDateBound : Int := 18231

/-- A row dated strictly before 2019-12-01; NaN dates compare false. -/
def isAncientRow (r : CRow) : Bool :=
  match r.date with
  | some d => decide (d < ancientDateBound)
  | none => false

/-- `CovidCountyDataTransformer._drop_bad_rows`: drop rows with a null
FIPS/DATE/STATE (warning when any exist), then drop rows dated before
2019-12-01 (info log when any exist).  Returns the surviving rows and the log
entries. -/
def drop_bad_rows (df : List CRow) : List CRow × List String :=
  let bad := df.filter isBadRow
  let w1 :=
    if bad.isEmpty then ([] : List String)
    else ["Dropping rows with null in important columns"]
  let df1 := df.filter fun r => !(isBadRow r)
  let ancient := df1.filter isAncientRow
  let w2 :=
    if ancient.isEmpty then ([] : List String)
    else ["Dropping rows of ancient data"]
  let df2 := df1.filter fun r => !(isAncientRow r)
  (df2, w1 ++ w2)

/-- 2020-05-14 as epoch days (start of the incorrect-FL-ICU window). -/
def flIcuWindowStart : Int := 18396

/-- 2020-05-20 as epoch days (end of the incorrect-FL-ICU window). -/
def flIcuWindowEnd : Int := 18402

/-- The known-bad-value correction of `transform` (lines 171-174) on one row:
null out CURRENT_ICU for the Florida state row (FIPS "12") between 2020-05-14
and 2020-05-20 inclusive, in place. -/
def flIcuRow (r : CRow) : CRow :=
  if (r.fips == some "12") && dateInWindow r.date flIcuWindowStart flIcuWindowEnd
  then { r with currentIcu := none }
  else r

/-- The FL CURRENT_ICU correction applied to the whole table. -/
def removeIncorrectFlIcu (df : List CRow) : List CRow :=
  df.map flIcuRow

/-- A raw row of the `covid_us` feed with the columns of the `Fields` enum
that map to a canonical field used by the transformation steps. -/
structure RawCovidUsRow where
  location : Nat
  dt : Option Int
  cases_total : Option Int
  deaths_total : Option Int
  hospital_beds_capacity_count : Option Int
  hospital_beds_in_use_any : Option Int
  icu_beds_capacity_count : Option Int
  icu_beds_in_use_any : Option Int
  icu_beds_in_use_covid_total : Option Int
  deriving Repr, DecidableEq

/-- The FIPS derivation (line 130) followed by `helpers.rename_fields` under
the `Fields` mapping of update_covid_county_data.py: `dt` becomes DATE,
`cases_total` CASES, `deaths_total` DEATHS, `hospital_beds_capacity_count`
STAFFED_BEDS, `hospital_beds_in_use_any` HOSPITAL_BEDS_IN_USE_ANY,
`icu_beds_capacity_count` ICU_BEDS, `icu_beds_in_use_any` CURRENT_ICU_TOTAL
and `icu_beds_in_use_covid_total` CURRENT_ICU.  (helpers.rename_fields itself
is not among the provided sources; per spec §4.1 it renames the mapped columns
and drops the unmapped ones, preserving rows.) -/
def renameCovidUsRow (r : RawCovidUsRow) : CRow :=
  { fips := some (fips_from_int r.location)
    date := r.dt
    state := none
    county := none
    country := none
    aggregateLevel := none
    cases := r.cases_total
    deaths := r.deaths_total
    icuBeds := r.icu_beds_capacity_count
    hospitalBedsInUseAny := r.hospital_beds_in_use_any
    staffedBeds := r.hospital_beds_capacity_count
    currentIcuTotal := r.icu_beds_in_use_any
    currentIcu := r.icu_beds_in_use_covid_total }

/-- Fatal outcomes of the two county-data transforms. -/
inductive TransformError where
  | staleData (message : String)
  | duplicateTimeseriesKey
  deriving Repr, DecidableEq

/-- `COMMON_FIELDS_TIMESERIES_KEYS`: the (FIPS, DATE) tuple used as the row
index of the output table. -/
def timeseriesKey (r : CRow) : Option String × Option Int :=
  (r.fips, r.date)

/-- Everything `CovidCountyDataTransformer.transform` does between the
staleness check and the final indexing: FIPS derivation and renaming, the geo
split/join, the TX date shift, backfill suppression, dropping the state bed
columns, concatenation (states first), `_drop_bad_rows`, and the FL
CURRENT_ICU correction.  Returns the rows and the accumulated log. -/
def transformBody (raw : List RawCovidUsRow)
    (countyRef : List (String × String × String))
    (stateRef : List (String × String))
    (backfillRules : List BackfillRule) : List CRow × List String :=
  let df := raw.map renameCovidUsRow
  let split := counties_states_with_geoattributes df countyRef stateRef
  let counties := txDateShift split.1
  let counties2 := remove_county_backfilled_cases backfillRules counties
  let states := split.2.1.map dropStateBedColumns
  let all := states ++ counties2
  let dropped := drop_bad_rows all
  (removeIncorrectFlIcu dropped.1, split.2.2 ++ dropped.2)

/-- `CovidCountyDataTransformer.transform`: staleness check on the raw `dt`
column (default threshold), then the transformation body, then
`set_index(COMMON_FIELDS_TIMESERIES_KEYS, verify_integrity=True)`, which is a
fatal error when two rows share a (FIPS, DATE) key. -/
def transform (raw : List RawCovidUsRow)
    (countyRef : List (String × String × String))
    (stateRef : List (String × String))
    (backfillRules : List BackfillRule) (today : Int) :
    Except TransformError (List CRow × List String) :=
  match fail_if_no_recent_dates (raw.map (·.dt)) today with
  | .error m => .error (.staleData m)
  | .ok _ =>
    let body := transformBody raw countyRef stateRef backfillRules
    if (body.1.map timeseriesKey).Nodup then .ok body
    else .error .duplicateTimeseriesKey

/-- A raw row of the `usafacts_covid` feed (`UsaFactsFields`). -/
structure RawUsaFactsRow where
  rawFips : Nat
  dt : Option Int
  cases_total : Option Int
  deaths_total : Option Int
  deriving Repr, DecidableEq

/-- FIPS derivation and `UsaFactsFields` renaming for the usafacts feed. -/
def renameUsaFactsRow (r : RawUsaFactsRow) : CRow :=
  { fips := some (fips_from_int r.rawFips)
    date := r.dt
    state := none
    county := none
    country := none
    aggregateLevel := none
    cases := r.cases_total
    deaths := r.deaths_total
    icuBeds := none
    hospitalBedsInUseAny := none
    staffedBeds := none
    currentIcuTotal := none
    currentIcu := none }

/-- The body of `transform_usafacts`: renaming, geo split/join, concatenation
(states first) and `_drop_bad_rows`; no TX shift, backfill or bed-column
handling happens on this path. -/
def transformUsaFactsBody (raw : List RawUsaFactsRow)
    (countyRef : List (String × String × String))
    (stateRef : List (String × String)) : List CRow × List String :=
  let df := raw.map renameUsaFactsRow
  let split := counties_states_with_geoattributes df countyRef stateRef
  let all := split.2.1 ++ split.1
  let dropped := drop_bad_rows all
  (dropped.1, split.2.2 ++ dropped.2)

/-- `CovidCountyDataTransformer.transform_usafacts`: staleness check with
`stale_days_allowed=7`, the body above, then the same duplicate-key-checking
indexing as `transform`. -/
def transform_usafacts (raw : List RawUsaFactsRow)
    (countyRef : List (String × String × String))
    (stateRef : List (String × String)) (today : Int) :
    Except TransformError (List CRow × List String) :=
  match fail_if_no_recent_dates (raw.map (·.dt)) today 7 with
  | .error m => .error (.staleData m)
  | .ok _ =>
    let body := transformUsaFactsBody raw countyRef stateRef
    if (body.1.map timeseriesKey).Nodup then .ok body
    else .error .duplicateTimeseriesKey

/-!
Model of `ForecastHubUpdater.transform` (scripts/update_forecast_hub.py).
Quantiles are CSV floats that the script only ever compares for equality,
groups by and renders with `str(...)`; they are modelled as their rendered
decimal strings (`none` = NaN, i.e. a point forecast).  Forecast values are
opaque payloads, modelled as integers.
-/

/-- A raw long-form row of the downloaded forecast CSV, with the columns that
`transform` reads. -/
structure FRow where
  model_abbr : String
  unit : String
  forecast_date : Int
  target : String
  quantile : Option String
  value : Int
  deriving Repr, DecidableEq

/-- Split a character list at every space, like Python `str.split(" ")`:
adjacent separators yield empty pieces and the result is never empty. -/
def splitOnSpaceAux : List Char → List Char → List String
  | [], acc => [String.mk acc.reverse]
  | c :: cs, acc =>
    if c = ' ' then String.mk acc.reverse :: splitOnSpaceAux cs []
    else splitOnSpaceAux cs (c :: acc)

/-- `target.split(" ")`. -/
def targetTokens (target : String) : List String :=
  splitOnSpaceAux target.data []

/-- The numeric value of a decimal digit character. -/
def digitVal? (c : Char) : Option Nat :=
  if '0'.toNat ≤ c.toNat ∧ c.toNat ≤ '9'.toNat then some (c.toNat - '0'.toNat)
  else none

/-- Parse a nonempty all-digit character list as a natural number. -/
def digitsValAux? : List Char → Nat → Option Nat
  | [], acc => some acc
  | c :: cs, acc =>
    match digitVal? c with
    | some d => digitsValAux? cs (acc * 10 + d)
    | none => none

/-- Python `int(s)` on a token: an optional sign followed by at least one
decimal digit; anything else is a `ValueError` (`none`). -/
def parseIntToken? (s : String) : Option Int :=
  match s.data with
  | [] => none
  | '-' :: rest =>
    if rest.isEmpty then none
    else (digitsValAux? rest 0).map fun n => -(n : Int)
  | '+' :: rest =>
    if rest.isEmpty then none
    else (digitsValAux? rest 0).map fun n => (n : Int)
  | l => (digitsValAux? l 0).map fun n => (n : Int)

/-- `int(target.split(" ")[0])`: integer parse of the first token; `none` is
the `ValueError` case. -/
def parseTargetWeeks (target : String) : Option Int :=
  parseIntToken? ((targetTokens target).headD "")

/-- `.str[-2]` after `.str.split(" ")`: the second-to-last token, NaN when the
list is shorter than 2. -/
def secondToLast? (tokens : List String) : Option String :=
  match tokens.reverse with
  | _ :: x :: _ => some x
  | _ => none

/-- A forecast row after the target-descriptor parsing of `transform`
(lines 116-124). -/
structure ParsedFRow where
  model_abbr : String
  unit : String
  forecast_date : Int
  target_date : Int
  target_type : String
  target_summation : Option String
  quantile : Option String
  value : Int
  deriving Repr, DecidableEq

/-- The per-row part of lines 116-124 of update_forecast_hub.py:
`target_date = forecast_date + Timedelta(weeks=int(target.split(" ")[0]))`
(fatal `ValueError` when the first token is not an integer),
`target_type = target.split(" ")[-1]` and
`target_summation = target.split(" ")[-2]`. -/
def parseFRow (r : FRow) : Except String ParsedFRow :=
  match parseTargetWeeks r.target with
  | none => .error r.target
  | some n =>
    .ok { model_abbr := r.model_abbr
          unit := r.unit
          forecast_date := r.forecast_date
          target_date := r.forecast_date + 7 * n
          target_type := (targetTokens r.target).getLastD ""
          target_summation := secondToLast? (targetTokens r.target)
          quantile := r.quantile
          value := r.value }

/-- The pre-pivot filter mask (lines 126-136): keep a row unless it is the
national aggregate ("US"), a point forecast (NaN quantile), a non-incidence
target, or more than 4 weeks past the forecast-issue date. -/
def keptForecastRow (p : ParsedFRow) : Bool :=
  (p.unit != "US") && p.quantile.isSome && (p.target_summation == some "inc") &&
  decide (p.target_date ≤ p.forecast_date + 28)

/-- The index-plus-column tuple of the first pivot
(`set_index([MODEL_ABBR, REGION, FORECAST_DATE, TARGET_DATE, QUANTILE])`
followed by `pivot(columns="target_type")`); a duplicate tuple makes the
pivot raise. -/
structure Pivot1Key where
  model_abbr : String
  unit : String
  forecast_date : Int
  target_date : Int
  quantile : Option String
  target_type : String
  deriving Repr, DecidableEq

/-- The pivot index-plus-column tuple of one parsed row. -/
def pivot1Key (p : ParsedFRow) : Pivot1Key :=
  ⟨p.model_abbr, p.unit, p.forecast_date, p.target_date, p.quantile,
   p.target_type⟩

/-- The row index of the first pivot's output. -/
structure W1Key where
  model_abbr : String
  unit : String
  forecast_date : Int
  target_date : Int
  quantile : String
  deriving Repr, DecidableEq

/-- Index tuple of a kept row (kept rows always carry a quantile). -/
def w1KeyOf (p : ParsedFRow) : W1Key :=
  ⟨p.model_abbr, p.unit, p.forecast_date, p.target_date, p.quantile.getD ""⟩

/-- A row of the first pivot's output after `helpers.rename_fields` with the
forecast `Fields` mapping: the "case" and "death" target-type columns become
WEEKLY_NEW_CASES and WEEKLY_NEW_DEATHS and any other target-type column is
dropped (it has no canonical field). -/
structure W1Row where
  key : W1Key
  weekly_new_cases : Option Int
  weekly_new_deaths : Option Int
  deriving Repr, DecidableEq

/-- The cell of the first pivot at (index `k`, column `ttype`): the value of
the unique kept row with that index and target type, NaN when there is none. -/
def pivot1Cell (kept : List ParsedFRow) (k : W1Key) (ttype : String) :
    Option Int :=
  (kept.find? fun p => w1KeyOf p == k && p.target_type == ttype).map (·.value)

/-- First pivot plus renaming: one output row per distinct index tuple of the
kept rows, with the "case" and "death" columns looked up per cell. -/
def pivotTargetType (kept : List ParsedFRow) : List W1Row :=
  ((kept.map w1KeyOf).dedup).map fun k =>
    ⟨k, pivot1Cell kept k "case", pivot1Cell kept k "death"⟩

/-- The row index of the second pivot
(`set_index([FIPS, DATE, MODEL_ABBR, FORECAST_DATE])`). -/
structure W2Key where
  fips : String
  date : Int
  model_abbr : String
  forecast_date : Int
  deriving Repr, DecidableEq

/-- Regroup a first-pivot index for the second pivot. -/
def w2KeyOf (k : W1Key) : W2Key :=
  ⟨k.unit, k.target_date, k.model_abbr, k.forecast_date⟩

/-- A row of the final wide table: the four-part key plus one column per
(value-field, quantile) pair, named `<field>_<quantile>`. -/
structure W2Row where
  key : W2Key
  columns : List (String × Option Int)
  deriving Repr, DecidableEq

/-- The value columns present in the first pivot's output after renaming:
"case" and/or "death" columns exist exactly when some kept row has that
target type (pandas sorts pivot columns, and "case" < "death"). -/
def w1FieldNames (kept : List ParsedFRow) : List String :=
  (if kept.any fun p => p.target_type == "case"
   then ["weekly_new_cases"] else []) ++
  (if kept.any fun p => p.target_type == "death"
   then ["weekly_new_deaths"] else [])

/-- Lexicographic comparison of two character lists by code point. -/
def strLeAux : List Char → List Char → Bool
  | [], _ => true
  | _ :: _, [] => false
  | a :: as, b :: bs =>
    if a.toNat < b.toNat then true
    else if b.toNat < a.toNat then false
    else strLeAux as bs

/-- Lexicographic string order (the sort order of the pivoted quantile
strings; for the uniformly formatted decimal quantiles of the feed it agrees
with the numeric order pandas sorts by). -/
def strLe (s t : String) : Bool :=
  strLeAux s.data t.data

/-- Insert a string into a sorted list. -/
def insertSorted (q : String) : List String → List String
  | [] => [q]
  | x :: xs => if strLe q x then q :: x :: xs else x :: insertSorted q xs

/-- Insertion sort of strings under `strLe`. -/
def sortStrings : List String → List String
  | [] => []
  | x :: xs => insertSorted x (sortStrings xs)

/-- The distinct quantile strings of the kept rows, sorted (the second pivot
sorts its column level). -/
def w2Quantiles (kept : List ParsedFRow) : List String :=
  sortStrings ((kept.map fun p => p.quantile.getD "").dedup)

/-- The first-pivot row at second-pivot index `k` and quantile `q`. -/
def w1Find (wide1 : List W1Row) (k : W2Key) (q : String) : Option W1Row :=
  wide1.find? fun w => w2KeyOf w.key == k && w.key.quantile == q

/-- Project a named value field out of a first-pivot row. -/
def w1Field (w : W1Row) (f : String) : Option Int :=
  if f == "weekly_new_cases" then w.weekly_new_cases
  else if f == "weekly_new_deaths" then w.weekly_new_deaths
  else none

/-- The second pivot (lines 177-188): one output row per distinct four-part
key, and for every value field `f` and quantile `q` a column named
`f ++ "_" ++ q` (the `x[0] + "_" + str(x[1])` flattening) holding the cell of
the first pivot's `f` column at (key, q). -/
def pivotQuantiles (kept : List ParsedFRow) (wide1 : List W1Row) :
    List W2Row :=
  let fields := w1FieldNames kept
  let quantiles := w2Quantiles kept
  ((wide1.map fun w => w2KeyOf w.key).dedup).map fun k =>
    ⟨k, (fields.map fun f => quantiles.map fun q =>
          (f ++ "_" ++ q, (w1Find wide1 k q).bind (w1Field · f))).flatten⟩

/-- Fatal outcomes of the forecast transform: a `ValueError` from
`int(...)` on a malformed target descriptor, or a duplicate pivot index. -/
inductive ForecastError where
  | malformedTarget (target : String)
  | duplicateIndex
  deriving Repr, DecidableEq

/-- `ForecastHubUpdater.transform`: parse the target descriptors of every row
(fatal on the first malformed one), filter with the pre-pivot mask, pivot
target types into value columns (fatal when two kept rows share the pivot
index-plus-column tuple), then pivot quantiles into column-name suffixes.
(The second pivot cannot see a duplicate index: its (key, quantile) pairs
re-group the already-distinct first-pivot index tuples.) -/
def ForecastHub_transform (raw : List FRow) :
    Except ForecastError (List W2Row) :=
  match raw.mapM parseFRow with
  | .error t => .error (.malformedTarget t)
  | .ok parsed =>
    let kept := parsed.filter keptForecastRow
    if (kept.map pivot1Key).Nodup then
      .ok (pivotQuantiles kept (pivotTargetType kept))
    else
      .error .duplicateIndex

/-- Modelled from the spec (§4.3, for claim C3): the transformation body with
the quality filters applied in exactly the order the spec states them —
(2) null-key rejection, (3) ancient-data rejection, (4) the known-bad-value
correction, and (5) backfill suppression last (on the whole table); the
staleness check (1) stays first in `transform` and the shape steps keep
their places. -/
def specOrderBody (raw : List RawCovidUsRow)
    (countyRef : List (String × String × String))
    (stateRef : List (String × String))
    (backfillRules : List BackfillRule) : List CRow × List String :=
  let df := raw.map renameCovidUsRow
  let split := counties_states_with_geoattributes df countyRef stateRef
  let counties := txDateShift split.1
  let states := split.2.1.map dropStateBedColumns
  let all := states ++ counties
  let dropped := drop_bad_rows all
  let fixedVals := removeIncorrectFlIcu dropped.1
  (remove_county_backfilled_cases backfillRules fixedVals,
   split.2.2 ++ dropped.2)

/-! ### Supporting lemmas -/

theorem zeroPad_length (w : Nat) (s : String) :
    (zeroPad w s).length = (w - s.length) + s.length := by
  simp [zeroPad]

@[simp] theorem fipsLenIs2_def (r : CRow) :
    fipsLenIs2 r = optFipsLen2 r.fips := rfl

@[simp] theorem addCountry_fips (r : CRow) : (addCountry r).fips = r.fips := rfl

@[simp] theorem addCountry_date (r : CRow) : (addCountry r).date = r.date := rfl

@[simp] theorem addCountry_cases (r : CRow) :
    (addCountry r).cases = r.cases := rfl

@[simp] theorem addCountry_country (r : CRow) :
    (addCountry r).country = some "USA" := rfl

@[simp] theorem addCountry_aggregateLevel (r : CRow) :
    (addCountry r).aggregateLevel = r.aggregateLevel := rfl

@[simp] theorem addCountry_icuBeds (r : CRow) :
    (addCountry r).icuBeds = r.icuBeds := rfl

@[simp] theorem addCountry_hospitalBedsInUseAny (r : CRow) :
    (addCountry r).hospitalBedsInUseAny = r.hospitalBedsInUseAny := rfl

@[simp] theorem addCountry_staffedBeds (r : CRow) :
    (addCountry r).staffedBeds = r.staffedBeds := rfl

@[simp] theorem addCountry_currentIcuTotal (r : CRow) :
    (addCountry r).currentIcuTotal = r.currentIcuTotal := rfl

@[simp] theorem addCountry_currentIcu (r : CRow) :
    (addCountry r).currentIcu = r.currentIcu := rfl

@[simp] theorem mergeCountyRow_fips (cRef : List (String × String × String))
    (r : CRow) : (mergeCountyRow cRef r).fips = r.fips := by
  unfold mergeCountyRow; split <;> rfl

@[simp] theorem mergeCountyRow_date (cRef : List (String × String × String))
    (r : CRow) : (mergeCountyRow cRef r).date = r.date := by
  unfold mergeCountyRow; split <;> rfl

@[simp] theorem mergeCountyRow_cases (cRef : List (String × String × String))
    (r : CRow) : (mergeCountyRow cRef r).cases = r.cases := by
  unfold mergeCountyRow; split <;> rfl

@[simp] theorem mergeCountyRow_country (cRef : List (String × String × String))
    (r : CRow) : (mergeCountyRow cRef r).country = r.country := by
  unfold mergeCountyRow; split <;> rfl

@[simp] theorem mergeCountyRow_aggregateLevel
    (cRef : List (String × String × String)) (r : CRow) :
    (mergeCountyRow cRef r).aggregateLevel = r.aggregateLevel := by
  unfold mergeCountyRow; split <;> rfl

@[simp] theorem mergeCountyRow_icuBeds (cRef : List (String × String × String))
    (r : CRow) : (mergeCountyRow cRef r).icuBeds = r.icuBeds := by
  unfold mergeCountyRow; split <;> rfl

@[simp] theorem mergeCountyRow_hospitalBedsInUseAny
    (cRef : List (String × String × String)) (r : CRow) :
    (mergeCountyRow cRef r).hospitalBedsInUseAny = r.hospitalBedsInUseAny := by
  unfold mergeCountyRow; split <;> rfl

@[simp] theorem mergeCountyRow_staffedBeds
    (cRef : List (String × String × String)) (r : CRow) :
    (mergeCountyRow cRef r).staffedBeds = r.staffedBeds := by
  unfold mergeCountyRow; split <;> rfl

@[simp] theorem mergeCountyRow_currentIcuTotal
    (cRef : List (String × String × String)) (r : CRow) :
    (mergeCountyRow cRef r).currentIcuTotal = r.currentIcuTotal := by
  unfold mergeCountyRow; split <;> rfl

@[simp] theorem mergeCountyRow_currentIcu
    (cRef : List (String × String × String)) (r : CRow) :
    (mergeCountyRow cRef r).currentIcu = r.currentIcu := by
  unfold mergeCountyRow; split <;> rfl

@[simp] theorem mergeCountyRow_state_isSome
    (cRef : List (String × String × String)) (r : CRow) :
    (mergeCountyRow cRef r).state.isSome =
      (r.fips.bind (lookupCounty cRef)).isSome := by
  unfold mergeCountyRow
  cases h : r.fips.bind (lookupCounty cRef) <;> simp [h]

@[simp] theorem tagCounty_fips (r : CRow) : (tagCounty r).fips = r.fips := rfl

@[simp] theorem tagCounty_date (r : CRow) : (tagCounty r).date = r.date := rfl

@[simp] theorem tagCounty_state (r : CRow) :
    (tagCounty r).state = r.state := rfl

@[simp] theorem tagCounty_cases (r : CRow) :
    (tagCounty r).cases = r.cases := rfl

@[simp] theorem tagCounty_country (r : CRow) :
    (tagCounty r).country = r.country := rfl

@[simp] theorem tagCounty_aggregateLevel (r : CRow) :
    (tagCounty r).aggregateLevel = some "county" := rfl

@[simp] theorem tagCounty_icuBeds (r : CRow) :
    (tagCounty r).icuBeds = r.icuBeds := rfl

@[simp] theorem tagCounty_hospitalBedsInUseAny (r : CRow) :
    (tagCounty r).hospitalBedsInUseAny = r.hospitalBedsInUseAny := rfl

@[simp] theorem tagCounty_staffedBeds (r : CRow) :
    (tagCounty r).staffedBeds = r.staffedBeds := rfl

@[simp] theorem tagCounty_currentIcuTotal (r : CRow) :
    (tagCounty r).currentIcuTotal = r.currentIcuTotal := rfl

@[simp] theorem tagCounty_currentIcu (r : CRow) :
    (tagCounty r).currentIcu = r.currentIcu := rfl

@[simp] theorem mergeStateRow_fips (sRef : List (String × String)) (r : CRow) :
    (mergeStateRow sRef r).fips = r.fips := rfl

@[simp] theorem mergeStateRow_date (sRef : List (String × String)) (r : CRow) :
    (mergeStateRow sRef r).date = r.date := rfl

@[simp] theorem mergeStateRow_state (sRef : List (String × String)) (r : CRow) :
    (mergeStateRow sRef r).state = r.fips.bind (lookupState sRef) := rfl

@[simp] theorem mergeStateRow_cases (sRef : List (String × String)) (r : CRow) :
    (mergeStateRow sRef r).cases = r.cases := rfl

@[simp] theorem mergeStateRow_country (sRef : List (String × String))
    (r : CRow) : (mergeStateRow sRef r).country = r.country := rfl

@[simp] theorem mergeStateRow_aggregateLevel (sRef : List (String × String))
    (r : CRow) : (mergeStateRow sRef r).aggregateLevel = some "state" := rfl

@[simp] theorem mergeStateRow_icuBeds (sRef : List (String × String))
    (r : CRow) : (mergeStateRow sRef r).icuBeds = r.icuBeds := rfl

@[simp] theorem mergeStateRow_hospitalBedsInUseAny
    (sRef : List (String × String)) (r : CRow) :
    (mergeStateRow sRef r).hospitalBedsInUseAny = r.hospitalBedsInUseAny := rfl

@[simp] theorem mergeStateRow_staffedBeds (sRef : List (String × String))
    (r : CRow) : (mergeStateRow sRef r).staffedBeds = r.staffedBeds := rfl

@[simp] theorem mergeStateRow_currentIcuTotal (sRef : List (String × String))
    (r : CRow) : (mergeStateRow sRef r).currentIcuTotal = r.currentIcuTotal :=
  rfl

@[simp] theorem mergeStateRow_currentIcu (sRef : List (String × String))
    (r : CRow) : (mergeStateRow sRef r).currentIcu = r.currentIcu := rfl

@[simp] theorem dropStateBedColumns_fips (r : CRow) :
    (dropStateBedColumns r).fips = r.fips := rfl

@[simp] theorem dropStateBedColumns_date (r : CRow) :
    (dropStateBedColumns r).date = r.date := rfl

@[simp] theorem dropStateBedColumns_state (r : CRow) :
    (dropStateBedColumns r).state = r.state := rfl

@[simp] theorem dropStateBedColumns_county (r : CRow) :
    (dropStateBedColumns r).county = r.county := rfl

@[simp] theorem dropStateBedColumns_country (r : CRow) :
    (dropStateBedColumns r).country = r.country := rfl

@[simp] theorem dropStateBedColumns_aggregateLevel (r : CRow) :
    (dropStateBedColumns r).aggregateLevel = r.aggregateLevel := rfl

@[simp] theorem dropStateBedColumns_cases (r : CRow) :
    (dropStateBedColumns r).cases = r.cases := rfl

@[simp] theorem dropStateBedColumns_deaths (r : CRow) :
    (dropStateBedColumns r).deaths = r.deaths := rfl

@[simp] theorem dropStateBedColumns_currentIcu (r : CRow) :
    (dropStateBedColumns r).currentIcu = r.currentIcu := rfl

@[simp] theorem dropStateBedColumns_icuBeds (r : CRow) :
    (dropStateBedColumns r).icuBeds = none := rfl

@[simp] theorem dropStateBedColumns_hospitalBedsInUseAny (r : CRow) :
    (dropStateBedColumns r).hospitalBedsInUseAny = none := rfl

@[simp] theorem dropStateBedColumns_staffedBeds (r : CRow) :
    (dropStateBedColumns r).staffedBeds = none := rfl

@[simp] theorem dropStateBedColumns_currentIcuTotal (r : CRow) :
    (dropStateBedColumns r).currentIcuTotal = none := rfl

@[simp] theorem backfillRow_fips (rules : List BackfillRule) (r : CRow) :
    (backfillRow rules r).fips = r.fips := by
  unfold backfillRow; split <;> rfl

@[simp] theorem backfillRow_date (rules : List BackfillRule) (r : CRow) :
    (backfillRow rules r).date = r.date := by
  unfold backfillRow; split <;> rfl

@[simp] theorem backfillRow_state (rules : List BackfillRule) (r : CRow) :
    (backfillRow rules r).state = r.state := by
  unfold backfillRow; split <;> rfl

@[simp] theorem backfillRow_county (rules : List BackfillRule) (r : CRow) :
    (backfillRow rules r).county = r.county := by
  unfold backfillRow; split <;> rfl

@[simp] theorem backfillRow_country (rules : List BackfillRule) (r : CRow) :
    (backfillRow rules r).country = r.country := by
  unfold backfillRow; split <;> rfl

@[simp] theorem backfillRow_aggregateLevel (rules : List BackfillRule)
    (r : CRow) : (backfillRow rules r).aggregateLevel = r.aggregateLevel := by
  unfold backfillRow; split <;> rfl

@[simp] theorem backfillRow_deaths (rules : List BackfillRule) (r : CRow) :
    (backfillRow rules r).deaths = r.deaths := by
  unfold backfillRow; split <;> rfl

@[simp] theorem backfillRow_icuBeds (rules : List BackfillRule) (r : CRow) :
    (backfillRow rules r).icuBeds = r.icuBeds := by
  unfold backfillRow; split <;> rfl

@[simp] theorem backfillRow_hospitalBedsInUseAny (rules : List BackfillRule)
    (r : CRow) :
    (backfillRow rules r).hospitalBedsInUseAny = r.hospitalBedsInUseAny := by
  unfold backfillRow; split <;> rfl

@[simp] theorem backfillRow_staffedBeds (rules : List BackfillRule) (r : CRow) :
    (backfillRow rules r).staffedBeds = r.staffedBeds := by
  unfold backfillRow; split <;> rfl

@[simp] theorem backfillRow_currentIcuTotal (rules : List BackfillRule)
    (r : CRow) :
    (backfillRow rules r).currentIcuTotal = r.currentIcuTotal := by
  unfold backfillRow; split <;> rfl

@[simp] theorem backfillRow_currentIcu (rules : List BackfillRule) (r : CRow) :
    (backfillRow rules r).currentIcu = r.currentIcu := by
  unfold backfillRow; split <;> rfl

@[simp] theorem flIcuRow_fips (r : CRow) : (flIcuRow r).fips = r.fips := by
  unfold flIcuRow; split <;> rfl

@[simp] theorem flIcuRow_date (r : CRow) : (flIcuRow r).date = r.date := by
  unfold flIcuRow; split <;> rfl

@[simp] theorem flIcuRow_state (r : CRow) : (flIcuRow r).state = r.state := by
  unfold flIcuRow; split <;> rfl

@[simp] theorem flIcuRow_county (r : CRow) :
    (flIcuRow r).county = r.county := by
  unfold flIcuRow; split <;> rfl

@[simp] theorem flIcuRow_country (r : CRow) :
    (flIcuRow r).country = r.country := by
  unfold flIcuRow; split <;> rfl

@[simp] theorem flIcuRow_aggregateLevel (r : CRow) :
    (flIcuRow r).aggregateLevel = r.aggregateLevel := by
  unfold flIcuRow; split <;> rfl

@[simp] theorem flIcuRow_cases (r : CRow) : (flIcuRow r).cases = r.cases := by
  unfold flIcuRow; split <;> rfl

@[simp] theorem flIcuRow_deaths (r : CRow) :
    (flIcuRow r).deaths = r.deaths := by
  unfold flIcuRow; split <;> rfl

@[simp] theorem flIcuRow_icuBeds (r : CRow) :
    (flIcuRow r).icuBeds = r.icuBeds := by
  unfold flIcuRow; split <;> rfl

@[simp] theorem flIcuRow_hospitalBedsInUseAny (r : CRow) :
    (flIcuRow r).hospitalBedsInUseAny = r.hospitalBedsInUseAny := by
  unfold flIcuRow; split <;> rfl

@[simp] theorem flIcuRow_staffedBeds (r : CRow) :
    (flIcuRow r).staffedBeds = r.staffedBeds := by
  unfold flIcuRow; split <;> rfl

@[simp] theorem flIcuRow_currentIcuTotal (r : CRow) :
    (flIcuRow r).currentIcuTotal = r.currentIcuTotal := by
  unfold flIcuRow; split <;> rfl

@[simp] theorem isBadRow_backfillRow (rules : List BackfillRule) (r : CRow) :
    isBadRow (backfillRow rules r) = isBadRow r := by
  unfold isBadRow; simp

@[simp] theorem isAncientRow_backfillRow (rules : List BackfillRule)
    (r : CRow) : isAncientRow (backfillRow rules r) = isAncientRow r := by
  unfold isAncientRow; simp

theorem filter_map_comm (f : CRow → CRow) (p : CRow → Bool)
    (hp : ∀ r, p (f r) = p r) (l : List CRow) :
    (l.map f).filter p = (l.filter p).map f := by
  induction l with
  | nil => rfl
  | cons a t ih =>
    simp only [List.map_cons, List.filter_cons, hp]
    cases h : p a <;> simp [ih]

theorem map_congr_mem {α : Type} {β : Type} {f g : α → β} {l : List α}
    (h : ∀ a ∈ l, f a = g a) : l.map f = l.map g := by
  induction l with
  | nil => rfl
  | cons a t ih =>
    simp only [List.map_cons]
    rw [h a (List.mem_cons_self a t), ih fun a ha => h a (List.mem_cons_of_mem _ ha)]

theorem isEmpty_map (f : CRow → CRow) (l : List CRow) :
    (l.map f).isEmpty = l.isEmpty := by
  cases l <;> rfl

theorem mem_geo_states_fipsLen2 (df : List CRow)
    (cRef : List (String × String × String)) (sRef : List (String × String)) :
    ∀ r ∈ (counties_states_with_geoattributes df cRef sRef).2.1,
      fipsLenIs2 r = true := by
  intro r hr
  have hs : (counties_states_with_geoattributes df cRef sRef).2.1 =
      ((df.map addCountry).filter fun r => fipsLenIs2 r).map
        (mergeStateRow sRef) := rfl
  rw [hs] at hr
  simp only [List.mem_map, List.mem_filter] at hr
  obtain ⟨x, ⟨_, hlen⟩, rfl⟩ := hr
  simpa using hlen

theorem mem_geo_counties_agg (df : List CRow)
    (cRef : List (String × String × String)) (sRef : List (String × String)) :
    ∀ r ∈ (counties_states_with_geoattributes df cRef sRef).1,
      r.aggregateLevel = some "county" := by
  intro r hr
  have hc : (counties_states_with_geoattributes df cRef sRef).1 =
      ((((df.map addCountry).filter fun r => !(fipsLenIs2 r)).map
        (mergeCountyRow cRef)).filter fun r => r.state.isSome).map tagCounty :=
    rfl
  rw [hc] at hr
  simp only [List.mem_map, List.mem_filter] at hr
  obtain ⟨y, _, rfl⟩ := hr
  simp

theorem mem_drop_bad_rows {df : List CRow} {r : CRow}
    (h : r ∈ (drop_bad_rows df).1) :
    r ∈ df ∧ isBadRow r = false ∧ isAncientRow r = false := by
  unfold drop_bad_rows at h
  simp only [List.mem_filter, Bool.not_eq_true'] at h
  exact ⟨h.1.1, h.1.2, h.2⟩

theorem shiftUpOne_aggregateLevel {l : List CRow} {r : CRow}
    (h : r ∈ shiftUpOne l) :
    r.aggregateLevel = none ∨
      ∃ x ∈ l, r.aggregateLevel = x.aggregateLevel := by
  induction l with
  | nil => cases h
  | cons a t ih =>
    cases t with
    | nil =>
      simp only [shiftUpOne, List.mem_singleton] at h
      subst h
      exact Or.inl rfl
    | cons b t2 =>
      simp only [shiftUpOne, List.mem_cons] at h
      rcases h with h | h
      · subst h
        exact Or.inr ⟨b, List.mem_cons_of_mem _ (List.mem_cons_self _ _), rfl⟩
      · rcases ih h with h1 | ⟨x, hx, hagg⟩
        · exact Or.inl h1
        · exact Or.inr ⟨x, List.mem_cons_of_mem _ hx, hagg⟩

theorem txDateShift_aggregateLevel {l : List CRow} {r : CRow}
    (hl : ∀ x ∈ l, x.aggregateLevel = some "county")
    (h : r ∈ txDateShift l) :
    r.aggregateLevel = none ∨ r.aggregateLevel = some "county" := by
  unfold txDateShift at h
  rcases List.mem_append.mp h with h | h
  · exact Or.inr (hl r (List.mem_of_mem_filter h))
  · have h2 := List.mem_of_mem_filter h
    rcases shiftUpOne_aggregateLevel h2 with h3 | ⟨x, hx, hagg⟩
    · exact Or.inl h3
    · exact Or.inr (hagg.trans (hl x (List.mem_of_mem_filter hx)))

theorem transform_ok_rows {raw : List RawCovidUsRow}
    {cRef : List (String × String × String)} {sRef : List (String × String)}
    {rules : List BackfillRule} {today : Int} {rows : List CRow}
    {log : List String}
    (h : transform raw cRef sRef rules today = .ok (rows, log)) :
    rows = (transformBody raw cRef sRef rules).1 ∧
      ((transformBody raw cRef sRef rules).1.map timeseriesKey).Nodup := by
  unfold transform at h
  cases hst : fail_if_no_recent_dates (raw.map (·.dt)) today with
  | error m => rw [hst] at h; cases h
  | ok u =>
    cases u
    rw [hst] at h
    by_cases hn :
        ((transformBody raw cRef sRef rules).1.map timeseriesKey).Nodup
    · rw [if_pos hn] at h
      injection h with h2
      exact ⟨by rw [h2], hn⟩
    · rw [if_neg hn] at h; cases h

theorem transform_usafacts_ok_rows {raw : List RawUsaFactsRow}
    {cRef : List (String × String × String)} {sRef : List (String × String)}
    {today : Int} {rows : List CRow} {log : List String}
    (h : transform_usafacts raw cRef sRef today = .ok (rows, log)) :
    rows = (transformUsaFactsBody raw cRef sRef).1 ∧
      ((transformUsaFactsBody raw cRef sRef).1.map timeseriesKey).Nodup := by
  unfold transform_usafacts at h
  cases hst : fail_if_no_recent_dates (raw.map (·.dt)) today 7 with
  | error m => rw [hst] at h; cases h
  | ok u =>
    cases u
    rw [hst] at h
    by_cases hn :
        ((transformUsaFactsBody raw cRef sRef).1.map timeseriesKey).Nodup
    · rw [if_pos hn] at h
      injection h with h2
      exact ⟨by rw [h2], hn⟩
    · rw [if_neg hn] at h; cases h

theorem forecast_ok_wide {raw : List FRow} {wide : List W2Row}
    (h : ForecastHub_transform raw = .ok wide) :
    ∃ parsed, raw.mapM parseFRow = .ok parsed ∧
      wide = pivotQuantiles (parsed.filter keptForecastRow)
        (pivotTargetType (parsed.filter keptForecastRow)) := by
  unfold ForecastHub_transform at h
  cases hm : raw.mapM parseFRow with
  | error t => rw [hm] at h; cases h
  | ok parsed =>
    rw [hm] at h
    have h2 : (if ((parsed.filter keptForecastRow).map pivot1Key).Nodup then
        (Except.ok (pivotQuantiles (parsed.filter keptForecastRow)
          (pivotTargetType (parsed.filter keptForecastRow))) :
          Except ForecastError (List W2Row))
      else .error .duplicateIndex) = .ok wide := h
    by_cases hn : ((parsed.filter keptForecastRow).map pivot1Key).Nodup
    · rw [if_pos hn] at h2
      injection h2 with h3
      exact ⟨parsed, rfl, h3.symm⟩
    · rw [if_neg hn] at h2; cases h2

theorem pivotQuantiles_keys (kept : List ParsedFRow) (w1 : List W1Row) :
    (pivotQuantiles kept w1).map W2Row.key =
      (w1.map fun w => w2KeyOf w.key).dedup := by
  unfold pivotQuantiles
  rw [List.map_map]
  exact List.map_id' _

theorem mapM_parseFRow_error {raw : List FRow} {r : FRow} (hr : r ∈ raw)
    (hp : parseTargetWeeks r.target = none) :
    ∃ t, raw.mapM parseFRow = .error t := by
  induction raw with
  | nil => cases hr
  | cons a l ih =>
    rw [List.mapM_cons]
    rcases List.mem_cons.mp hr with h | h
    · subst h
      have : parseFRow r = .error r.target := by
        unfold parseFRow
        rw [hp]
      rw [this]
      exact ⟨r.target, rfl⟩
    · cases hpa : parseFRow a with
      | error t => exact ⟨t, rfl⟩
      | ok b =>
        obtain ⟨t, ht⟩ := ih h
        rw [ht]
        exact ⟨t, rfl⟩

theorem backfillRow_pos {rules : List BackfillRule} {r : CRow}
    (h : (rules.any fun b => (r.fips == some b.ruleFips) &&
        dateInWindow r.date b.startDate b.endDate) = true) :
    backfillRow rules r = { r with cases := none } := by
  unfold backfillRow; rw [if_pos h]

theorem backfillRow_not {rules : List BackfillRule} {r : CRow}
    (h : ¬ (rules.any fun b => (r.fips == some b.ruleFips) &&
        dateInWindow r.date b.startDate b.endDate) = true) :
    backfillRow rules r = r := by
  unfold backfillRow; rw [if_neg h]

theorem flIcuRow_pos {r : CRow}
    (h : ((r.fips == some "12") &&
        dateInWindow r.date flIcuWindowStart flIcuWindowEnd) = true) :
    flIcuRow r = { r with currentIcu := none } := by
  unfold flIcuRow; rw [if_pos h]

theorem flIcuRow_not {r : CRow}
    (h : ¬ ((r.fips == some "12") &&
        dateInWindow r.date flIcuWindowStart flIcuWindowEnd) = true) :
    flIcuRow r = r := by
  unfold flIcuRow; rw [if_neg h]

theorem flIcuRow_backfillRow_comm (rules : List BackfillRule) (r : CRow) :
    flIcuRow (backfillRow rules r) = backfillRow rules (flIcuRow r) := by
  by_cases h2 : (rules.any fun b => (r.fips == some b.ruleFips) &&
      dateInWindow r.date b.startDate b.endDate) = true
  · by_cases h1 : ((r.fips == some "12") &&
        dateInWindow r.date flIcuWindowStart flIcuWindowEnd) = true
    · rw [backfillRow_pos h2, flIcuRow_pos h1,
        flIcuRow_pos (r := { r with cases := none }) h1,
        backfillRow_pos (r := { r with currentIcu := none }) h2]
    · rw [backfillRow_pos h2, flIcuRow_not h1,
        flIcuRow_not (r := { r with cases := none }) h1,
        backfillRow_pos h2]
  · by_cases h1 : ((r.fips == some "12") &&
        dateInWindow r.date flIcuWindowStart flIcuWindowEnd) = true
    · rw [backfillRow_not h2, flIcuRow_pos h1,
        backfillRow_not (r := { r with currentIcu := none }) h2]
    · rw [backfillRow_not h2, flIcuRow_not h1, backfillRow_not h2]

theorem backfillRow_id_of_len2 {rules : List BackfillRule} {r : CRow}
    (h2 : optFipsLen2 r.fips = true)
    (hrules : ∀ b ∈ rules, b.ruleFips.length ≠ 2) :
    backfillRow rules r = r := by
  apply backfillRow_not
  intro hany
  rw [List.any_eq_true] at hany
  obtain ⟨b, hb, hmatch⟩ := hany
  rw [Bool.and_eq_true] at hmatch
  have hf := hmatch.1
  rw [beq_iff_eq] at hf
  rw [hf] at h2
  simp only [optFipsLen2, beq_iff_eq] at h2
  exact hrules b hb h2

theorem isEmpty_append_eq (l l2 : List CRow) :
    (l ++ l2).isEmpty = (l.isEmpty && l2.isEmpty) := by
  cases l <;> simp [List.isEmpty]

theorem drop_bad_rows_append_backfill (rules : List BackfillRule)
    (S C : List CRow) :
    drop_bad_rows (S ++ C.map (backfillRow rules)) =
      (((S.filter fun r => !(isBadRow r)).filter fun r =>
          !(isAncientRow r)) ++
        (((C.filter fun r => !(isBadRow r)).filter fun r =>
            !(isAncientRow r)).map (backfillRow rules)),
       (drop_bad_rows (S ++ C)).2) := by
  have hb : ∀ r, isBadRow (backfillRow rules r) = isBadRow r :=
    fun r => by simp
  have hnb : ∀ r, (!(isBadRow (backfillRow rules r))) = !(isBadRow r) :=
    fun r => by simp
  have ha : ∀ r, isAncientRow (backfillRow rules r) = isAncientRow r :=
    fun r => by simp
  have hna : ∀ r, (!(isAncientRow (backfillRow rules r))) = !(isAncientRow r) :=
    fun r => by simp
  unfold drop_bad_rows
  simp only [List.filter_append,
    filter_map_comm (backfillRow rules) isBadRow hb,
    filter_map_comm (backfillRow rules) (fun r => !(isBadRow r)) hnb,
    filter_map_comm (backfillRow rules) isAncientRow ha,
    filter_map_comm (backfillRow rules) (fun r => !(isAncientRow r)) hna,
    isEmpty_append_eq, isEmpty_map]

theorem dbr_bf_fst (rules : List BackfillRule) (S C : List CRow) :
    (drop_bad_rows (S ++ C.map (backfillRow rules))).1 =
      ((S.filter fun r => !(isBadRow r)).filter fun r => !(isAncientRow r)) ++
      (((C.filter fun r => !(isBadRow r)).filter fun r =>
          !(isAncientRow r)).map (backfillRow rules)) := by
  rw [drop_bad_rows_append_backfill]

theorem dbr_bf_snd (rules : List BackfillRule) (S C : List CRow) :
    (drop_bad_rows (S ++ C.map (backfillRow rules))).2 =
      (drop_bad_rows (S ++ C)).2 := by
  rw [drop_bad_rows_append_backfill]

theorem drop_bad_rows_append_fst (S C : List CRow) :
    (drop_bad_rows (S ++ C)).1 =
      ((S.filter fun r => !(isBadRow r)).filter fun r => !(isAncientRow r)) ++
      ((C.filter fun r => !(isBadRow r)).filter fun r => !(isAncientRow r)) :=
  by
  unfold drop_bad_rows
  simp only [List.filter_append]

/-! ### Claims -/

/-- C2: `_fail_if_no_recent_dates` raises a StaleData error iff the maximum
observation date in the feed is strictly older than today minus N days (N
defaulting to 3), the error message carries the stale date that was found; in
particular a feed whose newest date is today − 4 fails at the default N = 3
and succeeds at N = 4. -/
theorem claim_C2_staleness_check :
    (∀ (dates : List (Option Int)) (today n latest : Int),
        seriesMax dates = some latest →
        ((fail_if_no_recent_dates dates today n =
            .error ("Latest dt is " ++ toString latest)) ↔ latest < today - n) ∧
        ((fail_if_no_recent_dates dates today n = .ok ()) ↔
          ¬ latest < today - n)) ∧
    (∀ today : Int,
        fail_if_no_recent_dates [some (today - 4)] today =
          .error ("Latest dt is " ++ toString (today - 4)) ∧
        fail_if_no_recent_dates [some (today - 4)] today 4 = .ok ()) := by
  have key : ∀ (dates : List (Option Int)) (today n latest : Int),
      seriesMax dates = some latest →
      ((fail_if_no_recent_dates dates today n =
          .error ("Latest dt is " ++ toString latest)) ↔ latest < today - n) ∧
      ((fail_if_no_recent_dates dates today n = .ok ()) ↔
        ¬ latest < today - n) := by
    intro dates today n latest h
    unfold fail_if_no_recent_dates
    rw [h]
    by_cases hlt : latest < today - n
    · simp [hlt]
    · simp [hlt]
  refine ⟨key, fun today => ?_⟩
  have hmax : seriesMax [some (today - 4)] = some (today - 4) := rfl
  exact ⟨((key _ today 3 _ hmax).1).mpr (by omega),
         ((key _ today 4 _ hmax).2).mpr (by omega)⟩

/-- C2 witness: the theorem applied to the concrete feed `[-4]` with today = 0
and threshold 3. -/
theorem claim_C2_staleness_check_witness :
    seriesMax [some (-4 : Int)] = some (-4) ∧
    ((fail_if_no_recent_dates [some (-4 : Int)] 0 3 =
        .error ("Latest dt is " ++ toString (-4 : Int))) ↔ (-4 : Int) < 0 - 3) :=
  ⟨rfl, (claim_C2_staleness_check.1 [some (-4)] 0 3 (-4) rfl).1⟩

/-- C5: FIPS derivation zero-pads the integer location code to width 2 when
the value is below 100 and to width 5 otherwise (every FIPS code is below
100000): 6 becomes "06" and 6037 becomes "06037". -/
theorem claim_C5_fips_padding :
    fips_from_int 6 = "06" ∧ fips_from_int 6037 = "06037" ∧
    (∀ v : Nat, v < 100 → (fips_from_int v).length = 2) ∧
    (∀ v : Nat, 100 ≤ v → v < 100000 → (fips_from_int v).length = 5) := by
  refine ⟨rfl, rfl, ?_, ?_⟩
  · intro v hv
    have hr : (Nat.repr v).length ≤ 2 :=
      Nat.repr_length v 2 (by omega) (by norm_num; omega)
    unfold fips_from_int
    rw [if_pos hv]
    have ht : (toString v) = Nat.repr v := rfl
    rw [ht, zeroPad_length]
    omega
  · intro v h1 h2
    have hr : (Nat.repr v).length ≤ 5 :=
      Nat.repr_length v 5 (by omega) (by norm_num; omega)
    unfold fips_from_int
    rw [if_neg (by omega)]
    have ht : (toString v) = Nat.repr v := rfl
    rw [ht, zeroPad_length]
    omega

/-- C5 witness: the theorem applied at 6 and 6037. -/
theorem claim_C5_fips_padding_witness :
    (6 : Nat) < 100 ∧ (fips_from_int 6).length = 2 ∧
    (100 : Nat) ≤ 6037 ∧ (6037 : Nat) < 100000 ∧
    (fips_from_int 6037).length = 5 :=
  ⟨by decide, claim_C5_fips_padding.2.2.1 6 (by decide), by decide, by decide,
   claim_C5_fips_padding.2.2.2 6037 (by decide) (by decide)⟩

/-- C4 (code bug): on a single flagged region the date-shift block does turn
the series [10, 20, 30] into [20, 30] aligned to the first two dates, but the
shift is positional over the whole TX selection, not per region: with two TX
counties (48001 on days 100-101 with values [10, 20] and 48003 on days
100-101 with values [30, 40]) the row at 48001 position for day 101 receives
the FIPS and the first-day value of 48003, so the output contains the
spurious row (48003, day 101, value 30) — one region's values moved onto
another region's trailing date — while a per-region shift would only produce
(48001, 100, 20) and (48003, 100, 40). -/
theorem claim_C4_tx_shift_cross_region_contamination :
    txDateShift
      [⟨some "48201", some 100, none, none, none, none, some 10, none, none,
        none, none, none, none⟩,
       ⟨some "48201", some 101, none, none, none, none, some 20, none, none,
        none, none, none, none⟩,
       ⟨some "48201", some 102, none, none, none, none, some 30, none, none,
        none, none, none, none⟩] =
      [⟨some "48201", some 100, none, none, none, none, some 20, none, none,
        none, none, none, none⟩,
       ⟨some "48201", some 101, none, none, none, none, some 30, none, none,
        none, none, none, none⟩] ∧
    txDateShift
      [⟨some "48001", some 100, none, none, none, none, some 10, none, none,
        none, none, none, none⟩,
       ⟨some "48001", some 101, none, none, none, none, some 20, none, none,
        none, none, none, none⟩,
       ⟨some "48003", some 100, none, none, none, none, some 30, none, none,
        none, none, none, none⟩,
       ⟨some "48003", some 101, none, none, none, none, some 40, none, none,
        none, none, none, none⟩] =
      [⟨some "48001", some 100, none, none, none, none, some 20, none, none,
        none, none, none, none⟩,
       ⟨some "48003", some 101, none, none, none, none, some 30, none, none,
        none, none, none, none⟩,
       ⟨some "48003", some 100, none, none, none, none, some 40, none, none,
        none, none, none, none⟩] := by
  constructor <;> rfl

/-- C9 counterexample: a target descriptor with the wrong token count is not
a fatal parse error.  "4 wk" has 2 tokens instead of 4, yet the transform
completes (the row is silently excluded because its second-to-last token "4"
is not "inc"); only a non-integer first token aborts. -/
theorem claim_C9_counterexample_wrong_token_count_not_fatal :
    (targetTokens "4 wk").length = 2 ∧
    ForecastHub_transform
      [⟨"COVIDhub-ensemble", "01", 0, "4 wk", some "0.5", 1⟩] = .ok [] := by
  exact ⟨rfl, rfl⟩

/-- C9 (amended): the transform parses each target descriptor positionally —
for a descriptor of the form "N wk agg typ", target-date =
forecast-issue-date + N weeks, target-type = the last token and
aggregation-type = the second-to-last token — and a descriptor whose FIRST
token does not parse as an integer makes the whole transform fail with a
fatal parse error.  A wrong token count by itself is not fatal (see the
counterexample): such rows are silently excluded by the incidence filter
when their aggregation-type token is not "inc". -/
theorem claim_C9_target_parsing (r : FRow) (s agg typ : String) (n : Int) :
    (targetTokens r.target = [s, "wk", agg, typ] → parseIntToken? s = some n →
      parseFRow r = .ok
        { model_abbr := r.model_abbr, unit := r.unit,
          forecast_date := r.forecast_date,
          target_date := r.forecast_date + 7 * n,
          target_type := typ, target_summation := some agg,
          quantile := r.quantile, value := r.value }) ∧
    (∀ raw : List FRow, r ∈ raw → parseTargetWeeks r.target = none →
      ∃ t, ForecastHub_transform raw = .error (.malformedTarget t)) := by
  constructor
  · intro ht hn
    unfold parseFRow parseTargetWeeks
    rw [ht]
    simp only [List.headD_cons] at *
    rw [hn]
    simp [secondToLast?, List.getLastD]
  · intro raw hr hp
    obtain ⟨t, hmap⟩ := mapM_parseFRow_error hr hp
    refine ⟨t, ?_⟩
    unfold ForecastHub_transform
    rw [hmap]

/-- C9 witness: the amended theorem applied to the well-formed descriptor
"2 wk inc cases" and to a feed with the malformed descriptor "x wk". -/
theorem claim_C9_target_parsing_witness :
    (parseFRow ⟨"E", "01", 0, "2 wk inc cases", some "0.5", 5⟩ =
      .ok ⟨"E", "01", 0, 14, "cases", some "inc", some "0.5", 5⟩) ∧
    (∃ t, ForecastHub_transform [⟨"E", "01", 0, "x wk", some "0.5", 5⟩] =
      .error (.malformedTarget t)) :=
  ⟨(claim_C9_target_parsing ⟨"E", "01", 0, "2 wk inc cases", some "0.5", 5⟩
      "2" "inc" "cases" 2).1 rfl rfl,
   (claim_C9_target_parsing ⟨"E", "01", 0, "x wk", some "0.5", 5⟩
      "" "" "" 0).2 _ (List.mem_singleton.mpr rfl) rfl⟩

/-- C6 counterexample: a row whose FIPS has length 3 (neither 5 nor 2) is
routed to the county partition — the split is "length 2 versus everything
else", not "length 5 = county" — and with a matching county reference entry
it survives, tagged AGGREGATE_LEVEL="county", with a FIPS of length 3. -/
theorem claim_C6_counterexample_len3_county :
    (counties_states_with_geoattributes
        [⟨some "123", some 100, none, none, none, none, some 5, none, none,
          none, none, none, none⟩] [("123", "ZZ", "Midtown")] []).1 =
      [⟨some "123", some 100, some "ZZ", some "Midtown", some "USA",
        some "county", some 5, none, none, none, none, none, none⟩] ∧
    ∃ r ∈ (counties_states_with_geoattributes
        [⟨some "123", some 100, none, none, none, none, some 5, none, none,
          none, none, none, none⟩] [("123", "ZZ", "Midtown")] []).1,
      (r.fips.getD "").length ≠ 5 ∧ r.aggregateLevel = some "county" := by
  refine ⟨rfl, ?_⟩
  decide

/-- C6 (amended): the geo resolver routes a row to the state partition
exactly when its FIPS has length 2 and to the county partition whenever it
does not (length 5 is the realistic county case, but any other non-2 length
is also treated as county); every surviving county row is tagged
AGGREGATE_LEVEL="county", every state row AGGREGATE_LEVEL="state", and every
row of both partitions gains COUNTRY="USA".  A county-partition row survives
exactly when its FIPS matches the county reference table. -/
theorem claim_C6_geo_partition (df : List CRow)
    (cRef : List (String × String × String)) (sRef : List (String × String)) :
    (∀ r ∈ (counties_states_with_geoattributes df cRef sRef).1,
        (∃ f, r.fips = some f ∧ f.length ≠ 2) ∧
        r.aggregateLevel = some "county" ∧ r.country = some "USA") ∧
    (∀ r ∈ (counties_states_with_geoattributes df cRef sRef).2.1,
        (∃ f, r.fips = some f ∧ f.length = 2) ∧
        r.aggregateLevel = some "state" ∧ r.country = some "USA") ∧
    (∀ r ∈ df, fipsLenIs2 r = true →
        ∃ s ∈ (counties_states_with_geoattributes df cRef sRef).2.1,
          s.fips = r.fips ∧ s.date = r.date ∧ s.cases = r.cases) ∧
    (∀ r ∈ df, fipsLenIs2 r = false →
        (∃ c ∈ (counties_states_with_geoattributes df cRef sRef).1,
            c.fips = r.fips ∧ c.date = r.date ∧ c.cases = r.cases) ∨
        r.fips.bind (lookupCounty cRef) = none) := by
  have hc : (counties_states_with_geoattributes df cRef sRef).1 =
      ((((df.map addCountry).filter fun r => !(fipsLenIs2 r)).map
        (mergeCountyRow cRef)).filter fun r => r.state.isSome).map tagCounty :=
    rfl
  have hs : (counties_states_with_geoattributes df cRef sRef).2.1 =
      ((df.map addCountry).filter fun r => fipsLenIs2 r).map
        (mergeStateRow sRef) := rfl
  refine ⟨?_, ?_, ?_, ?_⟩
  · intro r hr
    rw [hc] at hr
    simp only [List.mem_map, List.mem_filter] at hr
    obtain ⟨y, ⟨⟨x, ⟨⟨z, hz, rfl⟩, hlen⟩, rfl⟩, hsome⟩, rfl⟩ := hr
    simp only [mergeCountyRow_state_isSome, addCountry_fips] at hsome
    cases hzf : z.fips with
    | none => rw [hzf] at hsome; simp at hsome
    | some f =>
      refine ⟨⟨f, by simp [hzf], ?_⟩, by simp, by simp⟩
      simp only [Bool.not_eq_eq_eq_not, Bool.not_true, fipsLenIs2_def,
        addCountry_fips, hzf] at hlen
      simpa [optFipsLen2] using hlen
  · intro r hr
    rw [hs] at hr
    simp only [List.mem_map, List.mem_filter] at hr
    obtain ⟨x, ⟨⟨z, hz, rfl⟩, hlen⟩, rfl⟩ := hr
    simp only [fipsLenIs2_def, addCountry_fips] at hlen
    cases hzf : z.fips with
    | none => rw [hzf] at hlen; simp [optFipsLen2] at hlen
    | some f =>
      rw [hzf] at hlen
      refine ⟨⟨f, by simp [hzf], ?_⟩, by simp, by simp⟩
      simpa [optFipsLen2] using hlen
  · intro r hr hlen
    refine ⟨mergeStateRow sRef (addCountry r), ?_, by simp, by simp, by simp⟩
    rw [hs]
    simp only [List.mem_map, List.mem_filter]
    exact ⟨addCountry r, ⟨⟨r, hr, rfl⟩, by simpa using hlen⟩, rfl⟩
  · intro r hr hlen
    cases hb : r.fips.bind (lookupCounty cRef) with
    | none => exact Or.inr rfl
    | some sc =>
      left
      refine ⟨tagCounty (mergeCountyRow cRef (addCountry r)), ?_,
        by simp, by simp, by simp⟩
      rw [hc]
      simp only [List.mem_map, List.mem_filter]
      refine ⟨mergeCountyRow cRef (addCountry r),
        ⟨⟨addCountry r, ⟨⟨r, hr, rfl⟩, by simpa using hlen⟩, rfl⟩, ?_⟩, rfl⟩
      simp [hb]

/-- C6 witness: the amended theorem applied to a one-row table with a
length-2 FIPS. -/
theorem claim_C6_geo_partition_witness :
    ∃ s ∈ (counties_states_with_geoattributes
        [⟨some "06", some 100, none, none, none, none, some 1, none, none,
          none, none, none, none⟩] [] [("06", "CA")]).2.1,
      s.fips = some "06" ∧ s.date = some 100 ∧ s.cases = some 1 :=
  (claim_C6_geo_partition
      [⟨some "06", some 100, none, none, none, none, some 1, none, none,
        none, none, none, none⟩] [] [("06", "CA")]).2.2.1 _
    (List.mem_singleton.mpr rfl) rfl

/-- C1: every completed run has pairwise-distinct timeseries keys — (FIPS,
DATE) for both county-data transforms, and the four-part wide key for the
forecast table, whose quantile component is distinct by construction because
quantiles become column names; and whenever the transformation body produces
two rows sharing a (FIPS, DATE) key, `transform` (and `transform_usafacts`)
fails with the fatal duplicate-key error instead of dropping or merging
rows. -/
theorem claim_C1_unique_timeseries_key :
    (∀ raw cRef sRef rules today rows log,
        transform raw cRef sRef rules today = .ok (rows, log) →
        (rows.map timeseriesKey).Nodup) ∧
    (∀ raw cRef sRef today rows log,
        transform_usafacts raw cRef sRef today = .ok (rows, log) →
        (rows.map timeseriesKey).Nodup) ∧
    (∀ raw cRef sRef rules today,
        fail_if_no_recent_dates (raw.map (·.dt)) today = .ok () →
        ¬ ((transformBody raw cRef sRef rules).1.map timeseriesKey).Nodup →
        transform raw cRef sRef rules today = .error .duplicateTimeseriesKey) ∧
    (∀ raw cRef sRef today,
        fail_if_no_recent_dates (raw.map (·.dt)) today 7 = .ok () →
        ¬ ((transformUsaFactsBody raw cRef sRef).1.map timeseriesKey).Nodup →
        transform_usafacts raw cRef sRef today =
          .error .duplicateTimeseriesKey) ∧
    (∀ raw wide, ForecastHub_transform raw = .ok wide →
        (wide.map W2Row.key).Nodup) := by
  refine ⟨?_, ?_, ?_, ?_, ?_⟩
  · intro raw cRef sRef rules today rows log h
    obtain ⟨hrows, hnodup⟩ := transform_ok_rows h
    rw [hrows]
    exact hnodup
  · intro raw cRef sRef today rows log h
    obtain ⟨hrows, hnodup⟩ := transform_usafacts_ok_rows h
    rw [hrows]
    exact hnodup
  · intro raw cRef sRef rules today hok hdup
    unfold transform
    rw [hok]
    rw [if_neg hdup]
  · intro raw cRef sRef today hok hdup
    unfold transform_usafacts
    rw [hok]
    rw [if_neg hdup]
  · intro raw wide h
    obtain ⟨parsed, _, hw⟩ := forecast_ok_wide h
    rw [hw, pivotQuantiles_keys]
    exact List.nodup_dedup _

/-- C1 witness: a feed carrying the same state row twice makes `transform`
fail with the duplicate-key error. -/
theorem claim_C1_unique_timeseries_key_witness :
    transform
      [⟨6, some 18500, some 1, none, none, none, none, none, none⟩,
       ⟨6, some 18500, some 1, none, none, none, none, none, none⟩]
      [] [("06", "CA")] [] 18501 = .error .duplicateTimeseriesKey :=
  claim_C1_unique_timeseries_key.2.2.1 _ _ _ _ _ rfl (by decide)

/-- C7: a row whose geographic reference-table join finds no match never
reaches the output — an unmatched county row is dropped (with a warning)
inside the geo resolver and an unmatched state row gets a null STATE and is
dropped (with a warning) by the null-key filter — so every output row has a
resolved STATE; the condition is recoverable: the only fatal errors are stale
data and a duplicate key, and a concrete run containing both kinds of miss
completes with the missed rows absent and both warnings logged. -/
theorem claim_C7_join_miss_dropped :
    (∀ raw cRef sRef rules today rows log,
        transform raw cRef sRef rules today = .ok (rows, log) →
        ∀ r ∈ rows, r.state.isSome = true) ∧
    (∀ raw cRef sRef today rows log,
        transform_usafacts raw cRef sRef today = .ok (rows, log) →
        ∀ r ∈ rows, r.state.isSome = true) ∧
    (∀ raw cRef sRef rules today e,
        transform raw cRef sRef rules today = .error e →
        (∃ m, e = .staleData m) ∨ e = .duplicateTimeseriesKey) ∧
    (transform
        [⟨6, some 18500, some 1, none, some 7, some 8, some 9, some 10,
          some 11⟩,
         ⟨6037, some 18500, some 2, none, some 7, some 8, some 9, some 10,
          some 11⟩,
         ⟨99999, some 18500, some 3, none, some 7, some 8, some 9, some 10,
          some 11⟩,
         ⟨90, some 18500, some 4, none, some 7, some 8, some 9, some 10,
          some 11⟩]
        [("06037", "CA", "Los Angeles")] [("06", "CA")] [] 18501 =
      .ok
        ([⟨some "06", some 18500, some "CA", none, some "USA", some "state",
           some 1, none, none, none, none, none, some 11⟩,
          ⟨some "06037", some 18500, some "CA", some "Los Angeles",
           some "USA", some "county", some 2, none, some 9, some 8, some 7,
           some 10, some 11⟩],
         ["Some counties did not match by fips",
          "Dropping rows with null in important columns"])) := by
  refine ⟨?_, ?_, ?_, by rfl⟩
  · intro raw cRef sRef rules today rows log h r hr
    rw [(transform_ok_rows h).1] at hr
    have hfst : (transformBody raw cRef sRef rules).1 =
        removeIncorrectFlIcu (drop_bad_rows
          ((counties_states_with_geoattributes (raw.map renameCovidUsRow)
              cRef sRef).2.1.map dropStateBedColumns ++
            remove_county_backfilled_cases rules
              (txDateShift (counties_states_with_geoattributes
                (raw.map renameCovidUsRow) cRef sRef).1))).1 := rfl
    rw [hfst] at hr
    obtain ⟨x, hx, rfl⟩ := List.mem_map.mp hr
    have hbad := (mem_drop_bad_rows hx).2.1
    simp only [isBadRow, Bool.or_eq_false_iff, Option.isNone_eq_false_iff]
      at hbad
    simpa using hbad.2
  · intro raw cRef sRef today rows log h r hr
    rw [(transform_usafacts_ok_rows h).1] at hr
    have hfst : (transformUsaFactsBody raw cRef sRef).1 =
        (drop_bad_rows
          ((counties_states_with_geoattributes (raw.map renameUsaFactsRow)
              cRef sRef).2.1 ++
            (counties_states_with_geoattributes (raw.map renameUsaFactsRow)
              cRef sRef).1)).1 := rfl
    rw [hfst] at hr
    have hbad := (mem_drop_bad_rows hr).2.1
    simp only [isBadRow, Bool.or_eq_false_iff, Option.isNone_eq_false_iff]
      at hbad
    simpa using hbad.2
  · intro raw cRef sRef rules today e h
    cases e with
    | staleData m => exact Or.inl ⟨m, rfl⟩
    | duplicateTimeseriesKey => exact Or.inr rfl

/-- C7 witness: the first part applied to the concrete run of the last part,
at its surviving state row. -/
theorem claim_C7_join_miss_dropped_witness :
    (⟨some "06", some 18500, some "CA", none, some "USA", some "state",
      some 1, none, none, none, none, none, some 11⟩ : CRow).state.isSome =
      true :=
  claim_C7_join_miss_dropped.1
    [⟨6, some 18500, some 1, none, some 7, some 8, some 9, some 10, some 11⟩,
     ⟨6037, some 18500, some 2, none, some 7, some 8, some 9, some 10,
      some 11⟩,
     ⟨99999, some 18500, some 3, none, some 7, some 8, some 9, some 10,
      some 11⟩,
     ⟨90, some 18500, some 4, none, some 7, some 8, some 9, some 10,
      some 11⟩]
    [("06037", "CA", "Los Angeles")] [("06", "CA")] [] 18501 _ _ rfl _
    (by decide)

/-- C10: dropping the four state-level bed columns before concatenation
nulls exactly ICU_BEDS, HOSPITAL_BEDS_IN_USE_ANY, STAFFED_BEDS and
CURRENT_ICU_TOTAL and leaves every other column of the row unchanged (the
step is applied only to the state partition, so county rows are untouched);
consequently every state-tagged row of a completed `transform` run has no
value in any of the four fields. -/
theorem claim_C10_state_bed_columns :
    (∀ r : CRow,
        (dropStateBedColumns r).icuBeds = none ∧
        (dropStateBedColumns r).hospitalBedsInUseAny = none ∧
        (dropStateBedColumns r).staffedBeds = none ∧
        (dropStateBedColumns r).currentIcuTotal = none ∧
        (dropStateBedColumns r).fips = r.fips ∧
        (dropStateBedColumns r).date = r.date ∧
        (dropStateBedColumns r).state = r.state ∧
        (dropStateBedColumns r).county = r.county ∧
        (dropStateBedColumns r).country = r.country ∧
        (dropStateBedColumns r).aggregateLevel = r.aggregateLevel ∧
        (dropStateBedColumns r).cases = r.cases ∧
        (dropStateBedColumns r).deaths = r.deaths ∧
        (dropStateBedColumns r).currentIcu = r.currentIcu) ∧
    (∀ raw cRef sRef rules today rows log,
        transform raw cRef sRef rules today = .ok (rows, log) →
        ∀ r ∈ rows, r.aggregateLevel = some "state" →
          r.icuBeds = none ∧ r.hospitalBedsInUseAny = none ∧
          r.staffedBeds = none ∧ r.currentIcuTotal = none) := by
  constructor
  · intro r
    exact ⟨rfl, rfl, rfl, rfl, rfl, rfl, rfl, rfl, rfl, rfl, rfl, rfl, rfl⟩
  · intro raw cRef sRef rules today rows log h r hr hstate
    rw [(transform_ok_rows h).1] at hr
    have hfst : (transformBody raw cRef sRef rules).1 =
        removeIncorrectFlIcu (drop_bad_rows
          ((counties_states_with_geoattributes (raw.map renameCovidUsRow)
              cRef sRef).2.1.map dropStateBedColumns ++
            remove_county_backfilled_cases rules
              (txDateShift (counties_states_with_geoattributes
                (raw.map renameCovidUsRow) cRef sRef).1))).1 := rfl
    rw [hfst] at hr
    obtain ⟨x, hx, rfl⟩ := List.mem_map.mp hr
    have hmem := (mem_drop_bad_rows hx).1
    rcases List.mem_append.mp hmem with hxs | hxc
    · obtain ⟨y, _, rfl⟩ := List.mem_map.mp hxs
      simp
    · obtain ⟨z, hz, rfl⟩ := List.mem_map.mp hxc
      have hagg := txDateShift_aggregateLevel
        (mem_geo_counties_agg (raw.map renameCovidUsRow) cRef sRef) hz
      rw [show (flIcuRow (backfillRow rules z)).aggregateLevel =
        z.aggregateLevel by simp] at hstate
      rcases hagg with h1 | h1 <;> rw [h1] at hstate <;> simp at hstate

/-- C10 witness: the second part applied to a concrete completed run at its
state row. -/
theorem claim_C10_state_bed_columns_witness :
    (⟨some "06", some 18500, some "CA", none, some "USA", some "state",
      some 1, none, none, none, none, none, some 11⟩ : CRow).icuBeds = none ∧
    (⟨some "06", some 18500, some "CA", none, some "USA", some "state",
      some 1, none, none, none, none, none, some 11⟩ : CRow).staffedBeds =
      none :=
  ⟨(claim_C10_state_bed_columns.2
      [⟨6, some 18500, some 1, none, some 7, some 8, some 9, some 10,
        some 11⟩]
      [] [("06", "CA")] [] 18501 _ _ rfl _ (by decide) rfl).1,
   (claim_C10_state_bed_columns.2
      [⟨6, some 18500, some 1, none, some 7, some 8, some 9, some 10,
        some 11⟩]
      [] [("06", "CA")] [] 18501 _ _ rfl _ (by decide) rfl).2.2.1⟩

/-- C3: the staleness check runs first (a stale feed aborts `transform`
before anything else), and although the source text interleaves backfill
suppression earlier (it is applied to the counties partition before the
null-key, ancient-data and bad-value steps), the pipeline is extensionally
equal to the spec's stated order — null-key rejection, then ancient-data
rejection, then the known-bad-value correction, then backfill suppression
last — provided the backfill rule list names county regions (no length-2
FIPS), because backfill suppression only edits case values of flagged county
rows and therefore commutes with the other filters; consequently a row with
a null key never reaches the bad-value correction: every surviving row has
non-null FIPS, DATE and STATE. -/
theorem claim_C3_quality_filter_order (raw : List RawCovidUsRow)
    (cRef : List (String × String × String)) (sRef : List (String × String))
    (rules : List BackfillRule)
    (hrules : ∀ b ∈ rules, b.ruleFips.length ≠ 2) :
    transformBody raw cRef sRef rules = specOrderBody raw cRef sRef rules ∧
    (∀ today m, fail_if_no_recent_dates (raw.map (·.dt)) today = .error m →
        transform raw cRef sRef rules today = .error (.staleData m)) ∧
    (∀ today rows log,
        transform raw cRef sRef rules today = .ok (rows, log) →
        ∀ r ∈ rows, r.fips.isSome ∧ r.date.isSome ∧ r.state.isSome) := by
  refine ⟨?_, ?_, ?_⟩
  · have key : ∀ S C : List CRow, (∀ r ∈ S, optFipsLen2 r.fips = true) →
        removeIncorrectFlIcu
            (drop_bad_rows (S ++ C.map (backfillRow rules))).1 =
          (removeIncorrectFlIcu (drop_bad_rows (S ++ C)).1).map
            (backfillRow rules) := by
      intro S C hS
      rw [dbr_bf_fst, drop_bad_rows_append_fst]
      unfold removeIncorrectFlIcu
      simp only [List.map_append, List.map_map]
      congr 1
      · apply map_congr_mem
        intro a ha
        have haS : a ∈ S :=
          List.mem_of_mem_filter (List.mem_of_mem_filter ha)
        have hlen : optFipsLen2 (flIcuRow a).fips = true := by
          rw [flIcuRow_fips]; exact hS a haS
        show flIcuRow a = backfillRow rules (flIcuRow a)
        exact (backfillRow_id_of_len2 hlen hrules).symm
      · apply map_congr_mem
        intro a _
        exact flIcuRow_backfillRow_comm rules a
    have hS : ∀ r ∈ (counties_states_with_geoattributes
        (raw.map renameCovidUsRow) cRef sRef).2.1.map dropStateBedColumns,
        optFipsLen2 r.fips = true := by
      intro r hr
      obtain ⟨y, hy, rfl⟩ := List.mem_map.mp hr
      have := mem_geo_states_fipsLen2 (raw.map renameCovidUsRow) cRef sRef y hy
      simpa using this
    have hk := key _ (txDateShift (counties_states_with_geoattributes
      (raw.map renameCovidUsRow) cRef sRef).1) hS
    have hw := dbr_bf_snd rules
      ((counties_states_with_geoattributes (raw.map renameCovidUsRow)
        cRef sRef).2.1.map dropStateBedColumns)
      (txDateShift (counties_states_with_geoattributes
        (raw.map renameCovidUsRow) cRef sRef).1)
    show (removeIncorrectFlIcu (drop_bad_rows
        ((counties_states_with_geoattributes (raw.map renameCovidUsRow)
            cRef sRef).2.1.map dropStateBedColumns ++
          (txDateShift (counties_states_with_geoattributes
            (raw.map renameCovidUsRow) cRef sRef).1).map
            (backfillRow rules))).1,
      (counties_states_with_geoattributes (raw.map renameCovidUsRow)
        cRef sRef).2.2 ++
      (drop_bad_rows
        ((counties_states_with_geoattributes (raw.map renameCovidUsRow)
            cRef sRef).2.1.map dropStateBedColumns ++
          (txDateShift (counties_states_with_geoattributes
            (raw.map renameCovidUsRow) cRef sRef).1).map
            (backfillRow rules))).2) =
      ((removeIncorrectFlIcu (drop_bad_rows
          ((counties_states_with_geoattributes (raw.map renameCovidUsRow)
              cRef sRef).2.1.map dropStateBedColumns ++
            txDateShift (counties_states_with_geoattributes
              (raw.map renameCovidUsRow) cRef sRef).1)).1).map
          (backfillRow rules),
        (counties_states_with_geoattributes (raw.map renameCovidUsRow)
          cRef sRef).2.2 ++
        (drop_bad_rows
          ((counties_states_with_geoattributes (raw.map renameCovidUsRow)
              cRef sRef).2.1.map dropStateBedColumns ++
            txDateShift (counties_states_with_geoattributes
              (raw.map renameCovidUsRow) cRef sRef).1)).2)
    rw [hk, hw]
  · intro today m h
    unfold transform
    rw [h]
  · intro today rows log h r hr
    rw [(transform_ok_rows h).1] at hr
    have hfst : (transformBody raw cRef sRef rules).1 =
        removeIncorrectFlIcu (drop_bad_rows
          ((counties_states_with_geoattributes (raw.map renameCovidUsRow)
              cRef sRef).2.1.map dropStateBedColumns ++
            remove_county_backfilled_cases rules
              (txDateShift (counties_states_with_geoattributes
                (raw.map renameCovidUsRow) cRef sRef).1))).1 := rfl
    rw [hfst] at hr
    obtain ⟨x, hx, rfl⟩ := List.mem_map.mp hr
    have hbad := (mem_drop_bad_rows hx).2.1
    simp only [isBadRow, Bool.or_eq_false_iff, Option.isNone_eq_false_iff]
      at hbad
    refine ⟨by simpa using hbad.1.1, by simpa using hbad.1.2,
      by simpa using hbad.2⟩

/-- C3 witness: the theorem applied to a concrete feed with a county
backfill rule. -/
theorem claim_C3_quality_filter_order_witness :
    transformBody
      [⟨6, some 18500, some 1, none, none, none, none, none, none⟩,
       ⟨48201, some 18500, some 2, none, none, none, none, none, none⟩]
      [("48201", "TX", "Harris")] [("06", "CA")] [⟨"48201", 18000, 19000⟩] =
    specOrderBody
      [⟨6, some 18500, some 1, none, none, none, none, none, none⟩,
       ⟨48201, some 18500, some 2, none, none, none, none, none, none⟩]
      [("48201", "TX", "Harris")] [("06", "CA")] [⟨"48201", 18000, 19000⟩] :=
  (claim_C3_quality_filter_order _ _ _ _ (by decide)).1

/-- C8: the forecast transform keeps exactly the rows passing the four
pre-pivot rules (non-"US" region, non-null quantile, incidence target,
horizon at most 4 weeks); every column of every completed run's wide output
is named `<field>_<quantile>` with the field and the quantile drawn from the
kept rows only; and the synthetic long-form input with quantiles
{0.1, 0.5, 0.9} for target-type "case" — together with a national-region
row, a point-forecast row, a cumulative-target row and an over-horizon row —
produces exactly the three columns weekly_new_cases_0.1, weekly_new_cases_0.5
and weekly_new_cases_0.9 holding the corresponding values, and nothing from
the excluded rows. -/
theorem claim_C8_forecast_filter_and_pivot :
    (∀ p : ParsedFRow, keptForecastRow p = true ↔
        (p.unit ≠ "US" ∧ p.quantile.isSome = true ∧
          p.target_summation = some "inc" ∧
          p.target_date ≤ p.forecast_date + 28)) ∧
    (∀ raw parsed wide, raw.mapM parseFRow = .ok parsed →
        ForecastHub_transform raw = .ok wide →
        ∀ w ∈ wide, w.columns.map Prod.fst =
          ((w1FieldNames (parsed.filter keptForecastRow)).map fun f =>
            (w2Quantiles (parsed.filter keptForecastRow)).map fun q =>
              f ++ "_" ++ q).flatten) ∧
    ForecastHub_transform
      [⟨"E", "01", 0, "1 wk ahead inc case", some "0.1", 1⟩,
       ⟨"E", "01", 0, "1 wk ahead inc case", some "0.5", 2⟩,
       ⟨"E", "01", 0, "1 wk ahead inc case", some "0.9", 3⟩,
       ⟨"E", "US", 0, "1 wk ahead inc case", some "0.5", 99⟩,
       ⟨"E", "01", 0, "1 wk ahead inc case", none, 98⟩,
       ⟨"E", "01", 0, "1 wk ahead cum case", some "0.5", 97⟩,
       ⟨"E", "01", 0, "8 wk ahead inc case", some "0.5", 96⟩] =
      .ok [⟨⟨"01", 7, "E", 0⟩,
        [("weekly_new_cases_0.1", some 1), ("weekly_new_cases_0.5", some 2),
         ("weekly_new_cases_0.9", some 3)]⟩] := by
  refine ⟨?_, ?_, by rfl⟩
  · intro p
    unfold keptForecastRow
    constructor
    · intro h
      simp only [Bool.and_eq_true, bne_iff_ne, beq_iff_eq,
        decide_eq_true_eq] at h
      exact ⟨h.1.1.1, h.1.1.2, h.1.2, h.2⟩
    · intro ⟨h1, h2, h3, h4⟩
      simp only [Bool.and_eq_true, bne_iff_ne, beq_iff_eq,
        decide_eq_true_eq]
      exact ⟨⟨⟨h1, h2⟩, h3⟩, h4⟩
  · intro raw parsed wide hm h w hw
    obtain ⟨parsed2, hm2, hwide⟩ := forecast_ok_wide h
    rw [hm] at hm2
    injection hm2 with hpe
    subst hpe
    rw [hwide] at hw
    unfold pivotQuantiles at hw
    obtain ⟨k, _, rfl⟩ := List.mem_map.mp hw
    show (((w1FieldNames (parsed.filter keptForecastRow)).map fun f =>
        (w2Quantiles (parsed.filter keptForecastRow)).map fun q =>
          (f ++ "_" ++ q,
            (w1Find (pivotTargetType (parsed.filter keptForecastRow)) k
              q).bind (w1Field · f))).flatten).map Prod.fst = _
    rw [List.map_flatten, List.map_map]
    congr 1
    apply map_congr_mem
    intro f _
    show List.map Prod.fst _ = _
    rw [List.map_map]
    rfl

/-- C8 witness: the column-name part applied to the synthetic input of the
concrete part. -/
theorem claim_C8_forecast_filter_and_pivot_witness :
    ∀ w ∈ [(⟨⟨"01", 7, "E", 0⟩,
        [("weekly_new_cases_0.1", some 1), ("weekly_new_cases_0.5", some 2),
         ("weekly_new_cases_0.9", some 3)]⟩ : W2Row)],
      w.columns.map Prod.fst = ["weekly_new_cases_0.1",
        "weekly_new_cases_0.5", "weekly_new_cases_0.9"] := by
  intro w hw
  have h := claim_C8_forecast_filter_and_pivot.2.1
    [⟨"E", "01", 0, "1 wk ahead inc case", some "0.1", 1⟩,
     ⟨"E", "01", 0, "1 wk ahead inc case", some "0.5", 2⟩,
     ⟨"E", "01", 0, "1 wk ahead inc case", some "0.9", 3⟩,
     ⟨"E", "US", 0, "1 wk ahead inc case", some "0.5", 99⟩,
     ⟨"E", "01", 0, "1 wk ahead inc case", none, 98⟩,
     ⟨"E", "01", 0, "1 wk ahead cum case", some "0.5", 97⟩,
     ⟨"E", "01", 0, "8 wk ahead inc case", some "0.5", 96⟩]
    _ _ rfl rfl w hw
  rw [h]
  rfl

end CovidDataPublic
